import Mathlib

/-!
Shallow embedding of the proxy-routing core of `server.js` (the variant with
the domain-affinity cache): the `ProxyManager` pool/cache state, the
plain-HTTP retry loop (`requestHandler`) and the CONNECT tunnel loop
(`attemptConnect`), with the surrounding I/O (URL parsing, axios calls,
socket events) represented as explicit inputs.

JavaScript string primitives used by the source (`split` with a one-character
separator, the blank test `line.trim() !== ''`, and `indexOf(tok) !== -1`)
are modelled by structurally recursive functions on `List Char`, so that
every definition evaluates inside the kernel.
-/

/-- JS `String.prototype.split` with a one-character separator: accumulator
`acc` holds the current field reversed. -/
def splitCharAux (c : Char) : List Char → List Char → List (List Char)
  | [], acc => [acc.reverse]
  | x :: xs, acc =>
      if x = c then acc.reverse :: splitCharAux c xs []
      else splitCharAux c xs (x :: acc)

/-- JS `s.split(c)` for a single-character separator (the source only splits
on `':'` and `'\n'`). -/
def jsSplit (c : Char) (s : String) : List String :=
  (splitCharAux c s.toList []).map String.mk

/-- JS `line.trim() !== ''`: the line has at least one non-whitespace
character. -/
def isNonBlank (s : String) : Bool :=
  s.toList.any (fun ch => !ch.isWhitespace)

/-- Whether `pat` is a prefix of `s` (character lists). -/
def startsWithCh : List Char → List Char → Bool
  | [], _ => true
  | _ :: _, [] => false
  | p :: ps, c :: cs => p = c && startsWithCh ps cs

/-- Whether `pat` occurs somewhere in `s`. -/
def containsCh (pat : List Char) : List Char → Bool
  | [] => startsWithCh pat []
  | c :: cs => startsWithCh pat (c :: cs) || containsCh pat cs

/-- JS `s.indexOf(tok) !== -1`: some occurrence of `tok` inside `s`. -/
def hasToken (tok s : String) : Bool :=
  containsCh tok.toList s.toList

/-- A JavaScript `string | null | undefined` value, as produced by
`getNextProxy` (`null` for an empty pool, `undefined` for an out-of-range
array read `this.proxies[this.index]`). -/
inductive JsStr where
  | null
  | undefined
  | str (s : String)
  deriving DecidableEq

/-- One `domainCache` entry: `\x7b proxy, timestamp \x7d`, with the timestamp
taken from `Date.now()`. -/
structure CacheEntry where
  proxy : String
  timestamp : Int
  deriving DecidableEq

/-- The mutable state of `ProxyManager`: the proxy list `this.proxies`, the
round-robin cursor `this.index`, and the domain cache (`Map.get` modelled as
a function from domain to optional entry). -/
structure Mgr where
  proxies : List String
  index : Nat
  cache : String → Option CacheEntry

/-- `this.domainCache.delete(domain)` — shared body of the delete performed
inside `getProxyForDomain` and of `removeDomainMapping`. -/
def cacheDelete (domain : String) (st : Mgr) : Mgr :=
  { st with cache := fun d => if d = domain then none else st.cache d }

/-- `removeDomainMapping(domain)` (source lines 349-351). -/
def removeDomainMapping (domain : String) (st : Mgr) : Mgr :=
  cacheDelete domain st

/-- `setDomainForDomain(domain, proxy)` (source lines 344-346):
`this.domainCache.set(domain, \x7b proxy, timestamp: Date.now() \x7d)`;
the current time is passed explicitly as `now`. -/
def setDomainForDomain (domain proxy : String) (now : Int) (st : Mgr) : Mgr :=
  { st with cache := fun d => if d = domain then some ⟨proxy, now⟩ else st.cache d }

/-- `flushDomainCache()` (source lines 354-357): `this.domainCache.clear()`. -/
def flushDomainCache (st : Mgr) : Mgr :=
  { st with cache := fun _ => none }

/-- `getProxyForDomain(domain)` (source lines 334-341): return the cached
proxy if the entry exists and `Date.now() - mapping.timestamp <
PROXY_DOMAIN_CACHE_TTL`; otherwise delete the entry and return `null`.
`ttl` and the current time `now` are explicit parameters. -/
def getProxyForDomain (ttl now : Int) (domain : String) (st : Mgr) :
    Option String × Mgr :=
  match st.cache domain with
  | some m =>
      if now - m.timestamp < ttl then (some m.proxy, st)
      else (none, cacheDelete domain st)
  | none => (none, cacheDelete domain st)

/-- `getNextProxy()` (source lines 326-331): `null` when the list is empty;
otherwise the JS array read `this.proxies[this.index]` (which yields
`undefined` when the cursor is out of range, reachable after a refresh
replaced the list with a shorter one), then
`this.index = (this.index + 1) % this.proxies.length`. -/
def getNextProxy (st : Mgr) : JsStr × Mgr :=
  if st.proxies.length = 0 then (.null, st)
  else
    let proxy : JsStr :=
      match st.proxies.get? st.index with
      | some p => .str p
      | none => .undefined
    (proxy, { st with index := (st.index + 1) % st.proxies.length })

/-- The result of `axios.get(PROXY_LIST_URL)` in `refreshProxies`: either the
promise rejected (`failure`, caught by the `catch` block) or it resolved with
a status and a string body (`response.data`; JS truthiness of the body is
`data ≠ ""`). -/
inductive FetchResult where
  | failure (msg : String)
  | response (status : Nat) (data : String)
  deriving DecidableEq

/-- The line parsing inside `refreshProxies` (source lines 300-311): split
the body on newlines, keep lines whose trim is non-empty, split each on `:`;
a line with at least two fields becomes `PROXY_TYPE://field0:field1`
(matching on two leading fields is exactly the JS `parts.length >= 2` check
followed by reads of `parts[0]` and `parts[1]`), other lines map to `null`
and are dropped by `.filter(Boolean)` (`reduceOption`). -/
def parseProxyList (pt body : String) : List String :=
  let lines := (jsSplit '\n' body).filter isNonBlank
  (lines.map (fun line =>
    match jsSplit ':' line with
    | a :: b :: _ => some (pt ++ "://" ++ a ++ ":" ++ b)
    | _ => none)).reduceOption

/-- `refreshProxies()` (source lines 295-319): on a resolved fetch with
status 200 and a truthy body, replace `this.proxies` wholesale with the
parsed list; on any other outcome (rejection caught by `catch`, bad status,
empty body) only log — the state is untouched and nothing is re-thrown. -/
def refreshProxies (pt : String) (fetch : FetchResult) (st : Mgr) : Mgr :=
  match fetch with
  | .failure _ => st
  | .response status data =>
      if status = 200 ∧ data ≠ "" then
        { st with proxies := parseProxyList pt data }
      else st

/-- C4: the original claim is false on states reachable after a shrinking
refresh. Start from a pool of two proxies, rotate once (cursor moves to 1),
then refresh successfully with a one-line list: the sequence is non-empty,
yet the next `getNextProxy` returns `undefined` — neither the `null`
"no proxy" signal nor an element of the current sequence. -/
theorem getNextProxy_shrunk_pool_cex :
    (let st0 : Mgr := ⟨["https://1.1.1.1:80", "https://2.2.2.2:81"], 0, fun _ => none⟩
     let st1 := (getNextProxy st0).2
     let st2 := refreshProxies "https" (.response 200 "5.6.7.8:3128\n") st1
     st2.proxies ≠ [] ∧
     (getNextProxy st2).1 = .undefined ∧
     (getNextProxy st2).1 ≠ .null ∧
     ∀ p ∈ st2.proxies, (getNextProxy st2).1 ≠ .str p) := by
  decide

/-- C4 (amended): `getNextProxy` never throws; on an empty sequence it
returns `null` leaving the state unchanged; when the cursor is in range
(always the case except transiently after a refresh shrank the list below
the cursor) it returns the element at the cursor — never `null` — and
advances the cursor exactly once modulo the current length; on a non-empty
sequence the new cursor is always back in range; and when the cursor is out
of range on a non-empty sequence it returns `undefined`. -/
theorem getNextProxy_spec (st : Mgr) :
    (st.proxies = [] → getNextProxy st = (.null, st)) ∧
    (∀ h : st.index < st.proxies.length,
       (getNextProxy st).1 = .str (st.proxies.get ⟨st.index, h⟩) ∧
       (getNextProxy st).1 ≠ .null ∧
       st.proxies.get ⟨st.index, h⟩ ∈ st.proxies ∧
       (getNextProxy st).2.index = (st.index + 1) % st.proxies.length ∧
       (getNextProxy st).2.proxies = st.proxies) ∧
    (st.proxies ≠ [] → (getNextProxy st).2.index < st.proxies.length) ∧
    (st.proxies ≠ [] → st.proxies.length ≤ st.index →
       (getNextProxy st).1 = .undefined) := by
  refine ⟨fun he => ?_, fun h => ?_, fun hne => ?_, fun hne hge => ?_⟩
  · simp [getNextProxy, he]
  · have hlen : st.proxies.length ≠ 0 := by omega
    have hget : st.proxies[st.index]? = some (st.proxies.get ⟨st.index, h⟩) := by
      rw [List.getElem?_eq_getElem h]
      simp [List.get_eq_getElem]
    refine ⟨?_, ?_, List.get_mem _ _ _, ?_, ?_⟩ <;>
      simp [getNextProxy, hlen, hget]
  · have hpos : 0 < st.proxies.length := List.length_pos.mpr hne
    have hlen : st.proxies.length ≠ 0 := by omega
    simp only [getNextProxy, hlen, if_false]
    exact Nat.mod_lt _ hpos
  · have hpos : 0 < st.proxies.length := List.length_pos.mpr hne
    have hlen : st.proxies.length ≠ 0 := by omega
    have hget : st.proxies[st.index]? = none := by
      simp [List.getElem?_eq_none_iff, hge]
    simp [getNextProxy, hlen, hget]

/-- C4 witness: the amended spec instantiated at a concrete in-range state. -/
theorem getNextProxy_spec_witness :
    (let st : Mgr := ⟨["https://1.1.1.1:80", "https://2.2.2.2:81"], 1, fun _ => none⟩
     (st.proxies = [] → getNextProxy st = (.null, st)) ∧
     (∀ h : st.index < st.proxies.length,
        (getNextProxy st).1 = .str (st.proxies.get ⟨st.index, h⟩) ∧
        (getNextProxy st).1 ≠ .null ∧
        st.proxies.get ⟨st.index, h⟩ ∈ st.proxies ∧
        (getNextProxy st).2.index = (st.index + 1) % st.proxies.length ∧
        (getNextProxy st).2.proxies = st.proxies) ∧
     (st.proxies ≠ [] → (getNextProxy st).2.index < st.proxies.length) ∧
     (st.proxies ≠ [] → st.proxies.length ≤ st.index →
        (getNextProxy st).1 = .undefined)) :=
  getNextProxy_spec ⟨["https://1.1.1.1:80", "https://2.2.2.2:81"], 1, fun _ => none⟩

/-- C6: an entry recorded at time `T` (with no intervening write, invalidate
or flush) is returned by `getProxyForDomain` at every time strictly before
`T + TTL`, with the state untouched; at any time `≥ T + TTL` the lookup
returns `none` and deletes the entry as a side effect (the post-lookup state
has no entry for the domain). -/
theorem affinity_ttl_spec (st : Mgr) (domain proxy : String) (T ttl now : Int) :
    (getProxyForDomain ttl now domain (setDomainForDomain domain proxy T st) =
      if now < T + ttl then
        (some proxy, setDomainForDomain domain proxy T st)
      else
        (none, cacheDelete domain (setDomainForDomain domain proxy T st))) ∧
    (cacheDelete domain (setDomainForDomain domain proxy T st)).cache domain
      = none := by
  have hc : (setDomainForDomain domain proxy T st).cache domain
      = some ⟨proxy, T⟩ := by
    simp [setDomainForDomain]
  constructor
  · simp only [getProxyForDomain, hc]
    by_cases h : now - T < ttl
    · rw [if_pos h, if_pos (by omega)]
    · rw [if_neg h, if_neg (by omega)]
  · simp [cacheDelete, setDomainForDomain]

/-- C8: a refresh keeps only non-blank lines that split on `:` into at least
two fields, builds each endpoint from exactly the first two fields (the rest
— e.g. a trailing country field — is ignored), and in particular the body
`"1.2.3.4:8080:US\n5.6.7.8:3128:DE\n"` yields exactly the two endpoints with
ports 8080 and 3128. -/
theorem parseProxyList_spec :
    parseProxyList "https" "1.2.3.4:8080:US\n5.6.7.8:3128:DE\n"
      = ["https://1.2.3.4:8080", "https://5.6.7.8:3128"] ∧
    ∀ (pt body p : String),
      p ∈ parseProxyList pt body ↔
        ∃ line ∈ jsSplit '\n' body, isNonBlank line = true ∧
          ∃ a b rest, jsSplit ':' line = a :: b :: rest ∧
            p = pt ++ "://" ++ a ++ ":" ++ b := by
  constructor
  · decide
  · intro pt body p
    simp only [parseProxyList, List.reduceOption_mem_iff, List.mem_map,
      List.mem_filter]
    constructor
    · rintro ⟨line, ⟨hmem, hnb⟩, hf⟩
      refine ⟨line, hmem, hnb, ?_⟩
      rcases hsp : jsSplit ':' line with _ | ⟨a, _ | ⟨b, rest⟩⟩ <;>
        rw [hsp] at hf <;> simp only [] at hf
      · exact absurd hf (by simp)
      · exact absurd hf (by simp)
      · exact ⟨a, b, rest, rfl, (Option.some.injEq _ _ ▸ hf).symm⟩
    · rintro ⟨line, hmem, hnb, a, b, rest, hsp, hp⟩
      exact ⟨line, ⟨hmem, hnb⟩, by rw [hsp, hp]⟩

/-- C9: `refreshProxies` is a total function of the fetch outcome (the
enclosing `try`/`catch` re-throws nothing); when the fetch fails or the
response is unusable (non-200 status or empty body) the proxy sequence, the
cursor and the cache are left exactly as they were; on a usable response the
sequence is replaced wholesale by the parsed list in a single assignment,
the cursor and cache untouched. -/
theorem refreshProxies_spec (pt : String) (fetch : FetchResult) (st : Mgr) :
    (refreshProxies pt fetch st).index = st.index ∧
    (∀ d, (refreshProxies pt fetch st).cache d = st.cache d) ∧
    (refreshProxies pt fetch st).proxies =
      (match fetch with
       | .failure _ => st.proxies
       | .response status data =>
           if status = 200 ∧ data ≠ "" then parseProxyList pt data
           else st.proxies) := by
  rcases fetch with msg | ⟨status, data⟩
  · exact ⟨rfl, fun d => rfl, rfl⟩
  · by_cases h : status = 200 ∧ data ≠ "" <;>
      simp [refreshProxies, h]

/-- JS strict equality `x === y` where `x` is the `string | null` return of
`getProxyForDomain`, promoted to `string | null | undefined`. -/
def jsOfOpt : Option String → JsStr
  | none => .null
  | some p => .str p

/-- The candidate-selection expression shared by both handlers (source lines
425-429 and 502-505):
`attempt === 0 ? (getProxyForDomain(domain) || getNextProxy()) : getNextProxy()`.
JS `||` falls through to rotation when the affinity lookup yields `null`
(or a falsy empty string). -/
def selectProxy (ttl now : Int) (domain : String) (attempt : Nat) (st : Mgr) :
    JsStr × Mgr :=
  if attempt = 0 then
    match getProxyForDomain ttl now domain st with
    | (some p, st1) => if p = "" then getNextProxy st1 else (.str p, st1)
    | (none, st1) => getNextProxy st1
  else getNextProxy st

/-- `getTunnelAgent(targetUrl, proxyUrl)` (source lines 365-391) as observed
by the retry loop: `new URL(proxyUrl)` throws `TypeError: Invalid URL` when
`proxyUrl` is `null` or `undefined` (their string coercions do not parse as
URLs); for the `scheme://host:port` strings the pool and cache hold, URL
parsing and agent construction succeed — the agent is represented by the
proxy string it routes through. -/
def getTunnelAgent : JsStr → Except String String
  | .str p => .ok p
  | _ => .error "Invalid URL"

/-- The catch-block invalidation of `requestHandler` (source lines 462-465):
`if (attempt === 0 && proxyManager.getProxyForDomain(domain) === proxyUrl)`
then `removeDomainMapping(domain)`; `&&` short-circuits, so the
(side-effecting) re-lookup only runs on attempt 0. -/
def invalidateStep (ttl now : Int) (attempt : Nat) (domain : String)
    (proxyUrl : JsStr) (st : Mgr) : Mgr :=
  if attempt = 0 then
    match getProxyForDomain ttl now domain st with
    | (cur, st1) =>
        if jsOfOpt cur = proxyUrl then removeDomainMapping domain st1 else st1
  else st

/-- The outcome of the `await axios(axiosOptions)` call of a given attempt:
the promise resolves with an upstream status, or rejects with an error
message (connection failure, timeout, validation failure). -/
inductive AttemptOutcome where
  | ok (status : Nat)
  | err (msg : String)

/-- One `res.writeHead` performed by `requestHandler`: the 400 plain-text
reply, the upstream status relayed on success, or the final 502 JSON reply
(carrying the last error message as `details`). -/
inductive Head where
  | badRequest
  | upstream (status : Nat)
  | badGateway (details : String)
  deriving DecidableEq

/-- What `requestHandler` did: every response head written to the client (in
order), the candidate proxy of each loop iteration, and the final manager
state. -/
structure HttpResult where
  heads : List Head
  tries : List JsStr
  mgr : Mgr

/-- The outcome of `new URL(req.url)` on the client request line: the
constructor threw (`invalid`), or it parsed with the given `protocol` and
`hostname`. -/
inductive ClientUrl where
  | invalid
  | valid (protocol hostname : String)
  deriving DecidableEq

/-- The retry loop of `requestHandler` (source lines 421-469), one step per
`while (attempt < MAX_RETRIES)` iteration; `fuel` is the number of
iterations left (`MAX_RETRIES - attempt`). Each iteration selects a
candidate, then `getTunnelAgent` + `axios` either yield a response — the
proxy is cached for the domain and the upstream status head is written — or
throw, which the `catch` block turns into the attempt-0 invalidation step,
`lastError = error` and `attempt++`. When the loop exits, the 502 JSON head
carries the last error message (`'Unknown error'` if no iteration ran). -/
def httpLoop (ttl now : Int) (env : Nat → AttemptOutcome) (domain : String) :
    Nat → Nat → Option String → List JsStr → Mgr → HttpResult
  | _, 0, lastError, tries, st =>
      { heads := [.badGateway (lastError.getD "Unknown error")],
        tries := tries, mgr := st }
  | attempt, fuel + 1, _, tries, st =>
      let sel := selectProxy ttl now domain attempt st
      let proxyUrl := sel.1
      let st1 := sel.2
      let tries1 := tries ++ [proxyUrl]
      match getTunnelAgent proxyUrl with
      | .ok p =>
          match env attempt with
          | .ok status =>
              { heads := [.upstream status], tries := tries1,
                mgr := setDomainForDomain domain p now st1 }
          | .err msg =>
              httpLoop ttl now env domain (attempt + 1) fuel (some msg) tries1
                (invalidateStep ttl now attempt domain proxyUrl st1)
      | .error msg =>
          httpLoop ttl now env domain (attempt + 1) fuel (some msg) tries1
            (invalidateStep ttl now attempt domain proxyUrl st1)

/-- `requestHandler` (source lines 395-474): answer 400 when
`new URL(req.url)` throws or the scheme is not http/https; otherwise run the
retry loop with the URL hostname as the affinity-cache key. -/
def requestHandler (maxRetries : Nat) (ttl now : Int)
    (env : Nat → AttemptOutcome) (url : ClientUrl) (st : Mgr) : HttpResult :=
  match url with
  | .invalid => { heads := [.badRequest], tries := [], mgr := st }
  | .valid protocol hostname =>
      if protocol = "http:" ∨ protocol = "https:" then
        httpLoop ttl now env hostname 0 maxRetries none [] st
      else { heads := [.badRequest], tries := [], mgr := st }

/-- C1 (failing evaluation): with an empty pool and no affinity entry,
`requestHandler` does NOT answer an immediate 500 "no proxies available" —
there is no empty-pool check left in this variant. `getNextProxy()` returns
`null`, `new URL(null)` throws `Invalid URL` inside the `try`, and the loop
retries all `MAX_RETRIES = 5` iterations (five `null` candidates) before
answering 502 Bad Gateway with `details: "Invalid URL"`. -/
theorem requestHandler_emptyPool_retries_502 :
    (let r := requestHandler 5 600000 0 (fun _ => .ok 200)
        (.valid "http:" "example.com") ⟨[], 0, fun _ => none⟩
     r.heads = [.badGateway "Invalid URL"] ∧
     r.tries = [.null, .null, .null, .null, .null]) := by
  decide

/-- C7: the attempt-0 invalidation re-checks identity against the cache's
current entry: a live entry naming the failed candidate is removed; a live
entry naming a different proxy leaves the state completely untouched (a
newer entry is never deleted); when the domain has no stored entry nothing
is removed; and on attempts ≥ 1 the step does not touch the state at all. -/
theorem invalidateStep_spec (ttl now : Int) (domain p : String) (st : Mgr) :
    (∀ e, st.cache domain = some e → now - e.timestamp < ttl →
       e.proxy = p →
       (invalidateStep ttl now 0 domain (.str p) st).cache domain = none) ∧
    (∀ e, st.cache domain = some e → now - e.timestamp < ttl →
       e.proxy ≠ p →
       invalidateStep ttl now 0 domain (.str p) st = st) ∧
    (st.cache domain = none →
       (invalidateStep ttl now 0 domain (.str p) st).cache domain = none) ∧
    (∀ a, a ≠ 0 → invalidateStep ttl now a domain (.str p) st = st) := by
  refine ⟨?_, ?_, ?_, ?_⟩
  · intro e hce hfresh hep
    simp [invalidateStep, getProxyForDomain, hce, if_pos hfresh, jsOfOpt, hep,
      removeDomainMapping, cacheDelete]
  · intro e hce hfresh hep
    simp [invalidateStep, getProxyForDomain, hce, if_pos hfresh, jsOfOpt, hep]
  · intro hce
    simp [invalidateStep, getProxyForDomain, hce, jsOfOpt, cacheDelete]
  · intro a ha
    simp [invalidateStep, ha]

/-- C7 witness: the identity re-check instantiated at a concrete state whose
cache holds a live entry for the domain; the entry names the failed
candidate, so it is removed. -/
theorem invalidateStep_spec_witness :
    (invalidateStep 600000 1000 0 "example.com" (.str "https://1.2.3.4:8080")
      ⟨[], 0, fun d => if d = "example.com"
        then some ⟨"https://1.2.3.4:8080", 500⟩ else none⟩).cache "example.com"
      = none :=
  (invalidateStep_spec 600000 1000 "example.com" "https://1.2.3.4:8080"
      ⟨[], 0, fun d => if d = "example.com"
        then some ⟨"https://1.2.3.4:8080", 500⟩ else none⟩).1
    ⟨"https://1.2.3.4:8080", 500⟩ (by decide) (by decide) rfl

/-- Every run of the retry loop writes exactly one response head: an
upstream status that some attempt's axios call resolved with, or the final
502 head. -/
theorem httpLoop_one_head (ttl now : Int) (env : Nat → AttemptOutcome)
    (domain : String) :
    ∀ fuel attempt lastError tries st,
      (∃ h, (httpLoop ttl now env domain attempt fuel lastError tries st).heads
          = [h] ∧
        ((∃ s, h = .upstream s ∧ ∃ k, attempt ≤ k ∧ env k = .ok s) ∨
         (∃ d, h = .badGateway d))) := by
  intro fuel
  induction fuel with
  | zero =>
      intro attempt lastError tries st
      exact ⟨_, rfl, .inr ⟨_, rfl⟩⟩
  | succ n ih =>
      intro attempt lastError tries st
      rcases hag : getTunnelAgent (selectProxy ttl now domain attempt st).1
        with msg | p
      · obtain ⟨h, hh, hc⟩ := ih (attempt + 1)
          (some msg) (tries ++ [(selectProxy ttl now domain attempt st).1])
          (invalidateStep ttl now attempt domain
            (selectProxy ttl now domain attempt st).1
            (selectProxy ttl now domain attempt st).2)
        refine ⟨h, ?_, ?_⟩
        · simpa [httpLoop, hag] using hh
        · rcases hc with ⟨s, hs, k, hk, he⟩ | hd
          · exact .inl ⟨s, hs, k, by omega, he⟩
          · exact .inr hd
      · rcases henv : env attempt with s | m
        · exact ⟨.upstream s, by simp [httpLoop, hag, henv],
            .inl ⟨s, rfl, attempt, le_refl _, henv⟩⟩
        · obtain ⟨h, hh, hc⟩ := ih (attempt + 1)
            (some m) (tries ++ [(selectProxy ttl now domain attempt st).1])
            (invalidateStep ttl now attempt domain
              (selectProxy ttl now domain attempt st).1
              (selectProxy ttl now domain attempt st).2)
          refine ⟨h, ?_, ?_⟩
          · simpa [httpLoop, hag, henv] using hh
          · rcases hc with ⟨s, hs, k, hk, he⟩ | hd
            · exact .inl ⟨s, hs, k, by omega, he⟩
            · exact .inr hd

/-- C10: on every execution path `requestHandler` writes exactly one
response head — 400 when the request-line URL is invalid or its scheme
unsupported, an upstream status that some attempt resolved with, or the
final 502 — in particular also on the path where every selected proxy is
absent (`null`) or fails. -/
theorem requestHandler_one_head (maxRetries : Nat) (ttl now : Int)
    (env : Nat → AttemptOutcome) (url : ClientUrl) (st : Mgr) :
    ∃ h, (requestHandler maxRetries ttl now env url st).heads = [h] ∧
      (h = .badRequest ∨ (∃ s, h = .upstream s ∧ ∃ k, env k = .ok s) ∨
       ∃ d, h = .badGateway d) ∧
      (url = .invalid → h = .badRequest) := by
  cases url with
  | invalid => exact ⟨.badRequest, rfl, .inl rfl, fun _ => rfl⟩
  | valid protocol hostname =>
      by_cases hp : protocol = "http:" ∨ protocol = "https:"
      · obtain ⟨h, hh, hc⟩ :=
          httpLoop_one_head ttl now env hostname maxRetries 0 none [] st
        refine ⟨h, ?_, ?_, fun hinv => by simp at hinv⟩
        · simpa [requestHandler, hp] using hh
        · rcases hc with ⟨s, hs, k, _, he⟩ | hd
          · exact .inr (.inl ⟨s, hs, k, he⟩)
          · exact .inr (.inr hd)
      · exact ⟨.badRequest, by simp [requestHandler, hp], .inl rfl,
          fun _ => rfl⟩

/-- C10 witness: the single-head property at a concrete input where every
attempt fails (the pool is empty, so every selected candidate is `null`). -/
theorem requestHandler_one_head_witness :
    ∃ h, (requestHandler 5 600000 0 (fun _ => .err "ECONNREFUSED")
        (.valid "http:" "example.com") ⟨[], 0, fun _ => none⟩).heads = [h] ∧
      (h = .badRequest ∨
       (∃ s, h = .upstream s ∧
         ∃ _k : Nat, AttemptOutcome.err "ECONNREFUSED" = .ok s) ∨
       ∃ d, h = .badGateway d) ∧
      ((ClientUrl.valid "http:" "example.com") = .invalid → h = .badRequest) :=
  requestHandler_one_head 5 600000 0 (fun _ => .err "ECONNREFUSED")
    (.valid "http:" "example.com") ⟨[], 0, fun _ => none⟩

/-- `const [targetHost] = req.url.split(':')` (source line 488): the first
colon-delimited field of the CONNECT target is the affinity-cache key. -/
def connectDomain (reqUrl : String) : String :=
  (jsSplit ':' reqUrl).headD ""

/-- The first event observed on a freshly dialed proxy socket: the
`once('data')` chunk with the upstream proxy's CONNECT reply, or an `error`
event before any data arrives. -/
inductive ConnEvent where
  | chunk (data : String)
  | sockError (code : String)

/-- The client socket of a CONNECT request: status lines written to it, and
whether `end()` / `destroy()` were called. -/
structure ClientSock where
  writes : List String
  ended : Bool
  destroyed : Bool
  deriving DecidableEq

/-- Terminal state of one `attemptConnect` cascade: the tunnel was
established at some attempt through some proxy, or the client was rejected
with a 502 after the budget ran out, or a synchronous exception escaped the
handler (the process crashes — nothing catches throws inside the `connect`
listener). -/
inductive COutcome where
  | established (attempt : Nat) (proxy : String)
  | rejected
  | crashed (msg : String)
  deriving DecidableEq

/-- Result of running the CONNECT logic: terminal outcome, client-socket
state, every upstream proxy actually dialed (in order), and the manager
state. -/
structure ConnResult where
  outcome : COutcome
  client : ClientSock
  dials : List String
  mgr : Mgr

/-- The recursive `attemptConnect` (source lines 492-587), with `fuel` the
remaining budget `MAX_RETRIES - attempt`. Budget exhausted: write the 502
status line to the client (best effort) and `end()` it. Otherwise select a
candidate exactly as the HTTP path does; `new URL(proxyUrl)` throws
synchronously — uncaught — when the candidate is `null`/`undefined`
(`crashed`). On a dialed socket, the first event decides: an error retries
with the next candidate; a data chunk containing `200` writes the success
status line to the client, wires the relay and records the proxy in the
affinity cache (`established`); any other chunk destroys the proxy socket
and retries. -/
def connectLoop (ttl now : Int) (env : Nat → ConnEvent) (domain : String) :
    Nat → Nat → Mgr → ClientSock → List String → ConnResult
  | _, 0, st, cl, dials =>
      { outcome := .rejected,
        client := { cl with
          writes := cl.writes ++ ["HTTP/1.1 502 Bad Gateway\r\n\r\n"],
          ended := true },
        dials := dials, mgr := st }
  | attempt, fuel + 1, st, cl, dials =>
      let sel := selectProxy ttl now domain attempt st
      let st1 := sel.2
      match sel.1 with
      | .str p =>
          match env attempt with
          | .sockError _ =>
              connectLoop ttl now env domain (attempt + 1) fuel st1 cl
                (dials ++ [p])
          | .chunk data =>
              if hasToken "200" data then
                { outcome := .established attempt p,
                  client := { cl with writes := cl.writes ++
                    ["HTTP/1.1 200 Connection Established\r\n\r\n"] },
                  dials := dials ++ [p],
                  mgr := setDomainForDomain domain p now st1 }
              else
                connectLoop ttl now env domain (attempt + 1) fuel st1 cl
                  (dials ++ [p])
      | _ =>
          { outcome := .crashed "Invalid URL", client := cl,
            dials := dials, mgr := st1 }

/-- `attemptConnect(attempt)` with the source's `attempt >= MAX_RETRIES`
guard expressed through the remaining budget. -/
def attemptConnect (maxRetries : Nat) (ttl now : Int) (env : Nat → ConnEvent)
    (domain : String) (attempt : Nat) (st : Mgr) (cl : ClientSock)
    (dials : List String) : ConnResult :=
  connectLoop ttl now env domain attempt (maxRetries - attempt) st cl dials

/-- `serverOnConnect` (source lines 478-590): extract the target host from
the request line and start the cascade at attempt 0 on a fresh client
socket. -/
def serverOnConnect (maxRetries : Nat) (ttl now : Int)
    (env : Nat → ConnEvent) (reqUrl : String) (st : Mgr) : ConnResult :=
  attemptConnect maxRetries ttl now env (connectDomain reqUrl) 0 st
    ⟨[], false, false⟩ []

/-- An `error` event on the proxy socket after the tunnel was established at
`attempt`: the pre-handshake listener (source lines 539-545) is still
attached, so it destroys the proxy socket and calls
`attemptConnect(attempt + 1)` — dialing further upstream proxies and
possibly writing a second status line — and then the relay-phase listener
(source lines 567-572) destroys the client socket. -/
def establishedProxyError (maxRetries : Nat) (ttl now : Int)
    (env : Nat → ConnEvent) (domain : String) (attempt : Nat) (st : Mgr)
    (cl : ClientSock) (dials : List String) : ConnResult :=
  let r := attemptConnect maxRetries ttl now env domain (attempt + 1) st cl
    dials
  { r with client := { r.client with destroyed := true } }

/-- C2 (failing evaluation): a CONNECT request while the pool is empty and
the target has no affinity entry does NOT get a failure status line — this
variant has no empty-pool check, so `new URL(null)` throws synchronously
inside the `connect` listener, where nothing catches it: the client socket
receives no write and is neither ended nor destroyed, and the exception
escapes the handler (the process crashes). -/
theorem serverOnConnect_emptyPool_crash :
    (let r := serverOnConnect 5 600000 0
        (fun _ => .chunk "HTTP/1.1 200 Connection Established\r\n\r\n")
        "example.com:443" ⟨[], 0, fun _ => none⟩
     r.outcome = .crashed "Invalid URL" ∧ r.client.writes = [] ∧
     r.client.ended = false ∧ r.client.destroyed = false ∧ r.dials = []) := by
  decide

/-- C3 (failing evaluation): after the tunnel is established at attempt 0
through the first proxy, an error on the proxy socket triggers the stale
pre-handshake listener, which starts `attemptConnect(1)`: a second upstream
proxy IS dialed and a second `200` status line is written into the client
byte stream — contradicting "never triggers a further connection attempt". -/
theorem establishedProxyError_retries_again :
    (let env : Nat → ConnEvent :=
        fun _ => .chunk "HTTP/1.1 200 Connection Established\r\n\r\n"
     let st : Mgr := ⟨["https://1.1.1.1:8080", "https://2.2.2.2:8081"], 0,
        fun _ => none⟩
     let r0 := serverOnConnect 5 600000 0 env "example.com:443" st
     let r1 := establishedProxyError 5 600000 0 env "example.com" 0 r0.mgr
        r0.client r0.dials
     r0.outcome = .established 0 "https://1.1.1.1:8080" ∧
     r0.dials = ["https://1.1.1.1:8080"] ∧
     r1.dials = ["https://1.1.1.1:8080", "https://2.2.2.2:8081"] ∧
     r1.outcome = .established 1 "https://2.2.2.2:8081" ∧
     r1.client.writes = ["HTTP/1.1 200 Connection Established\r\n\r\n",
       "HTTP/1.1 200 Connection Established\r\n\r\n"] ∧
     r1.client.destroyed = true) := by
  decide

/-- When the domain has no cache entry and the cursor is in range, selection
(on any attempt) comes from rotation: it yields the proxy at the cursor,
keeps the sequence, advances the cursor modulo the length, and leaves the
domain without a cache entry. -/
theorem selectProxy_rotation (ttl now : Int) (domain : String) (attempt : Nat)
    (st : Mgr) (hidx : st.index < st.proxies.length)
    (hc : st.cache domain = none) :
    (selectProxy ttl now domain attempt st).1
        = .str (st.proxies.get ⟨st.index, hidx⟩) ∧
    (selectProxy ttl now domain attempt st).2.proxies = st.proxies ∧
    (selectProxy ttl now domain attempt st).2.index
        = (st.index + 1) % st.proxies.length ∧
    (selectProxy ttl now domain attempt st).2.cache domain = none := by
  have hlen : st.proxies.length ≠ 0 := by omega
  have hget : st.proxies[st.index]? = some (st.proxies.get ⟨st.index, hidx⟩) := by
    rw [List.getElem?_eq_getElem hidx]
    simp [List.get_eq_getElem]
  by_cases ha : attempt = 0
  · refine ⟨?_, ?_, ?_, ?_⟩ <;>
      simp [selectProxy, ha, getProxyForDomain, hc, getNextProxy, cacheDelete,
        hlen, hget]
  · refine ⟨?_, ?_, ?_, ?_⟩ <;>
      simp [selectProxy, ha, getNextProxy, hlen, hget, hc]

/-- Budget-generalized form of C5: if every attempt still in the budget gets
a first data chunk without the token `200`, the cascade ends `rejected`,
appending exactly the 502 status line to the client and ending it, dialing
one proxy per budgeted attempt, and the domain still has no cache entry. -/
theorem connectLoop_non200_aux (ttl now : Int) (env : Nat → ConnEvent)
    (domain : String) :
    ∀ (fuel attempt : Nat) (st : Mgr) (cl : ClientSock) (dials : List String),
      st.index < st.proxies.length →
      st.cache domain = none →
      (∀ k, attempt ≤ k → k < attempt + fuel →
         ∃ c, env k = .chunk c ∧ hasToken "200" c = false) →
      (connectLoop ttl now env domain attempt fuel st cl dials).outcome
          = .rejected ∧
      (connectLoop ttl now env domain attempt fuel st cl dials).client.writes
          = cl.writes ++ ["HTTP/1.1 502 Bad Gateway\r\n\r\n"] ∧
      (connectLoop ttl now env domain attempt fuel st cl dials).client.ended
          = true ∧
      (connectLoop ttl now env domain attempt fuel st cl
          dials).mgr.cache domain = none ∧
      (connectLoop ttl now env domain attempt fuel st cl dials).dials.length
          = dials.length + fuel := by
  intro fuel
  induction fuel with
  | zero =>
      intro attempt st cl dials hidx hc henv
      exact ⟨rfl, rfl, rfl, hc, rfl⟩
  | succ n ih =>
      intro attempt st cl dials hidx hc henv
      have hpos : 0 < st.proxies.length := by omega
      obtain ⟨hsel1, hselP, hselI, hselC⟩ :=
        selectProxy_rotation ttl now domain attempt st hidx hc
      obtain ⟨c, hck, hc200⟩ := henv attempt (le_refl _) (by omega)
      have hidx1 : (selectProxy ttl now domain attempt st).2.index
          < (selectProxy ttl now domain attempt st).2.proxies.length := by
        rw [hselI, hselP]
        exact Nat.mod_lt _ hpos
      have henv1 : ∀ k, attempt + 1 ≤ k → k < (attempt + 1) + n →
          ∃ c, env k = .chunk c ∧ hasToken "200" c = false := by
        intro k h1 h2
        exact henv k (by omega) (by omega)
      obtain ⟨ho, hw, he, hm, hd⟩ := ih (attempt + 1)
        (selectProxy ttl now domain attempt st).2 cl
        (dials ++ [st.proxies.get ⟨st.index, hidx⟩]) hidx1 hselC henv1
      refine ⟨?_, ?_, ?_, ?_, ?_⟩ <;>
        (simp only [connectLoop, hsel1, hck, hc200, Bool.false_eq_true,
          if_false]
         simp only [ho, hw, he, hm, hd, List.length_append, List.length_cons,
           List.length_nil]
         try omega)

/-- C5: a CONNECT request for which every tried candidate proxy's first data
chunk lacks the token `200` ends, after the configured maximum number of
attempts (one dial per attempt), with the client socket receiving exactly
the `502` status line and being closed, and with no entry recorded in the
affinity cache for the target domain. -/
theorem connect_all_non200_rejected (maxRetries : Nat) (ttl now : Int)
    (env : Nat → ConnEvent) (reqUrl : String) (st : Mgr)
    (hidx : st.index < st.proxies.length)
    (hc : st.cache (connectDomain reqUrl) = none)
    (henv : ∀ k, k < maxRetries →
       ∃ c, env k = .chunk c ∧ hasToken "200" c = false) :
    (serverOnConnect maxRetries ttl now env reqUrl st).outcome = .rejected ∧
    (serverOnConnect maxRetries ttl now env reqUrl st).client.writes
        = ["HTTP/1.1 502 Bad Gateway\r\n\r\n"] ∧
    (serverOnConnect maxRetries ttl now env reqUrl st).client.ended = true ∧
    (serverOnConnect maxRetries ttl now env reqUrl
        st).mgr.cache (connectDomain reqUrl) = none ∧
    (serverOnConnect maxRetries ttl now env reqUrl st).dials.length
        = maxRetries := by
  have h := connectLoop_non200_aux ttl now env (connectDomain reqUrl)
    maxRetries 0 st ⟨[], false, false⟩ [] hidx hc
    (by intro k h1 h2; exact henv k (by omega))
  simpa [serverOnConnect, attemptConnect] using h

/-- C5 witness: two attempts, a one-proxy pool, every handshake reply is a
`407` (no `200` token): the client gets exactly the 502 line and is closed,
the cache stays empty for the domain, and exactly two dials happened. -/
theorem connect_all_non200_rejected_witness :
    (serverOnConnect 2 600000 0
        (fun _ => .chunk "HTTP/1.1 407 Proxy Authentication Required\r\n\r\n")
        "example.com:443"
        ⟨["https://1.2.3.4:8080"], 0, fun _ => none⟩).outcome = .rejected ∧
    (serverOnConnect 2 600000 0
        (fun _ => .chunk "HTTP/1.1 407 Proxy Authentication Required\r\n\r\n")
        "example.com:443"
        ⟨["https://1.2.3.4:8080"], 0, fun _ => none⟩).client.writes
      = ["HTTP/1.1 502 Bad Gateway\r\n\r\n"] ∧
    (serverOnConnect 2 600000 0
        (fun _ => .chunk "HTTP/1.1 407 Proxy Authentication Required\r\n\r\n")
        "example.com:443"
        ⟨["https://1.2.3.4:8080"], 0, fun _ => none⟩).client.ended = true ∧
    (serverOnConnect 2 600000 0
        (fun _ => .chunk "HTTP/1.1 407 Proxy Authentication Required\r\n\r\n")
        "example.com:443"
        ⟨["https://1.2.3.4:8080"], 0,
          fun _ => none⟩).mgr.cache (connectDomain "example.com:443")
      = none ∧
    (serverOnConnect 2 600000 0
        (fun _ => .chunk "HTTP/1.1 407 Proxy Authentication Required\r\n\r\n")
        "example.com:443"
        ⟨["https://1.2.3.4:8080"], 0, fun _ => none⟩).dials.length = 2 :=
  connect_all_non200_rejected 2 600000 0
    (fun _ => .chunk "HTTP/1.1 407 Proxy Authentication Required\r\n\r\n")
    "example.com:443" ⟨["https://1.2.3.4:8080"], 0, fun _ => none⟩
    (by decide) rfl
    (fun k _ => ⟨"HTTP/1.1 407 Proxy Authentication Required\r\n\r\n", rfl,
      by decide⟩)
